import Mathlib

/-!
Shallow embedding of testgen.cc, a fixture generator for a key-value store.
The storage engine (gdbm) and the file system are external collaborators;
their behaviour in one run is captured by an environment record, and the
externally visible actions of a run are recorded as a trace of events.
-/

set_option maxRecDepth 8000

namespace Testgen

/-- Open-mode constant from gdbm.h: create a new database, truncating. -/
def GDBM_NEWDB : Nat := 3

/-- Open-mode flag from gdbm.h: enable the numsync extension. -/
def GDBM_NUMSYNC : Nat := 0x2000

/-- N_REC from testgen.cc: the record count of the basic plan. -/
def N_REC : Nat := 10001

/-- The character for a single decimal digit d, 0 ≤ d ≤ 9. -/
def digitChar (d : Nat) : Char := Char.ofNat (48 + d)

/-- Decimal digit characters of n, most significant first, with fuel.
Embeds the rendering done by the %u conversion of snprintf and fprintf. -/
def decChars : Nat → Nat → List Char
  | 0, _ => []
  | fuel + 1, n =>
    if n < 10 then [digitChar n]
    else decChars fuel (n / 10) ++ [digitChar (n % 10)]

/-- Decimal rendering of an unsigned integer, as printed by %u, %lu, %zu. -/
def natDecimal (n : Nat) : String := String.mk (decChars (n + 1) n)

/-- Decimal rendering of a signed integer, as printed by %d. -/
def intDecimal (i : Int) : String :=
  if i < 0 then "-" ++ natDecimal i.natAbs else natDecimal i.toNat

/-- snprintf into a buffer of the given size: the formatted string is kept
whole when it fits (with its terminating NUL), else truncated to size - 1
bytes. -/
def snprintfStr (size : Nat) (s : String) : String :=
  if s.length < size then s else String.mk (s.data.take (size - 1))

/-- The key of record i of the basic plan: snprintf(s, 128, "key %u", i). -/
def basicKey (i : Nat) : String := snprintfStr 128 ("key " ++ natDecimal i)

/-- The value of record i of the basic plan: snprintf(s, 128, "value %u", i). -/
def basicValue (i : Nat) : String := snprintfStr 128 ("value " ++ natDecimal i)

/-- The vector data built by the generation loop of gen_plan_basic. -/
def basicData : List (String × String) :=
  (List.range N_REC).map (fun i => (basicKey i, basicValue i))

/-- One run's view of the external world: whether gdbm_open succeeds, the
return code and output value of gdbm_count, the return code of gdbm_store
per key, whether fopen succeeds, and the value time(NULL) returns. -/
structure Env where
  openOk : Bool
  countRC : Int
  countVal : Nat
  storeRC : String → Int
  fopenOk : Bool
  time : Nat

/-- Externally visible actions of a run, in order. -/
inductive Event where
  | openStore (mode : Nat)
  | countQuery
  | storeWrite (key value : String) (ok : Bool)
  | closeStore
  | jsonWrite (content : String)
  | errMsg (msg : String)
  | usage
deriving DecidableEq

/-- How the process ends: return from main with a status, or abnormal
termination by SIGABRT (a failed assert). -/
inductive Outcome where
  | ret (code : Nat)
  | sigabrt
deriving DecidableEq

/-- The string printed before the data array: the concatenated fprintf
format literals of testgen.cc with the timestamp and count filled in. -/
def jsonHeader (t cnt : Nat) : String :=
  "\x7b" ++ "  \"generated_by\":\"testgen\"," ++ "  \"generated_time\":\"" ++ natDecimal t
    ++ "\"," ++ "  \"data_records\": " ++ natDecimal cnt ++ "," ++ "  \"data\": ["

/-- The JSON-array rendering loop of gen_plan_basic, with its first flag. -/
def renderPairsLoop : Bool → List (String × String) → String
  | _, [] => ""
  | first, p :: rest =>
    (if first then "" else ",") ++ "[\"" ++ p.1 ++ "\",\"" ++ p.2 ++ "\"]"
      ++ renderPairsLoop false rest

/-- The store-write loop of gen_plan_basic: writes records in order until
the first gdbm_store failure, which prints a diagnostic and stops. -/
def storeLoop (rc : String → Int) : List (String × String) → Bool × List Event
  | [] => (true, [])
  | p :: rest =>
    if rc p.1 = 0 then
      let r := storeLoop rc rest
      (r.1, Event.storeWrite p.1 p.2 true :: r.2)
    else
      (false, [Event.storeWrite p.1 p.2 false,
        Event.errMsg ("gdbm_store failed, rc " ++ intDecimal (rc p.1) ++ ", key "
          ++ p.1 ++ "\n")])

/-- gen_plan_empty of testgen.cc: open the store, query its count, assert
the count is zero, close, then write the JSON document with zero records. -/
def gen_plan_empty (env : Env) (numsync : Bool) : Outcome × List Event :=
  let mode := GDBM_NEWDB ||| (if numsync then GDBM_NUMSYNC else 0)
  if env.openOk then
    if env.countRC ≠ 0 then
      (Outcome.ret 1, [Event.openStore mode, Event.countQuery,
        Event.errMsg "gdbm_count failed\n"])
    else if env.countVal ≠ 0 then
      (Outcome.sigabrt, [Event.openStore mode, Event.countQuery])
    else if env.fopenOk then
      (Outcome.ret 0, [Event.openStore mode, Event.countQuery, Event.closeStore,
        Event.jsonWrite (jsonHeader env.time 0 ++ "]\x7d\n")])
    else
      (Outcome.ret 1, [Event.openStore mode, Event.countQuery, Event.closeStore,
        Event.errMsg "fopen failed\n"])
  else
    (Outcome.ret 1, [Event.errMsg "gdbm_open failed\n"])

/-- gen_plan_basic of testgen.cc: generate the data vector, open the store,
write every record (aborting on the first failure without closing), close,
then write the JSON document mirroring the data vector. -/
def gen_plan_basic (env : Env) (numsync : Bool) : Outcome × List Event :=
  let data := basicData
  let mode := GDBM_NEWDB ||| (if numsync then GDBM_NUMSYNC else 0)
  if env.openOk then
    let w := storeLoop env.storeRC data
    if w.1 then
      if env.fopenOk then
        (Outcome.ret 0, Event.openStore mode :: w.2 ++ [Event.closeStore,
          Event.jsonWrite (jsonHeader env.time data.length
            ++ renderPairsLoop true data ++ "]\x7d\n")])
      else
        (Outcome.ret 1, Event.openStore mode :: w.2 ++ [Event.closeStore,
          Event.errMsg "fopen failed\n"])
    else
      (Outcome.ret 1, Event.openStore mode :: w.2)
  else
    (Outcome.ret 1, [Event.errMsg "gdbm_open failed\n"])

/-- Arguments of main after option parsing: -o, -j, -p, -n. -/
structure Args where
  out_fn : Option String
  out_json : Option String
  plan : String
  numsync : Bool

/-- main of testgen.cc after getopt: require both file arguments, then
dispatch on the plan name; an unknown plan prints a diagnostic and
returns 1 before any store or file operation. -/
def mainRun (env : Env) (a : Args) : Outcome × List Event :=
  match a.out_fn, a.out_json with
  | some _, some _ =>
    if a.plan = "basic" then gen_plan_basic env a.numsync
    else if a.plan = "empty" then gen_plan_empty env a.numsync
    else (Outcome.ret 1, [Event.errMsg ("Unknown test plan " ++ a.plan ++ "\n")])
  | _, _ => (Outcome.ret 1, [Event.usage])

/-- The key-value pairs passed to gdbm_store, in trace order. -/
def storeKV : List Event → List (String × String)
  | [] => []
  | Event.storeWrite k v _ :: rest => (k, v) :: storeKV rest
  | _ :: rest => storeKV rest

/-- Whether an event is a successful store write. -/
def isOkStore : Event → Bool
  | Event.storeWrite _ _ ok => ok
  | _ => false

/-- The number of successful store-write calls in a trace. -/
def countOkStores (tr : List Event) : Nat := (tr.filter isOkStore).length

/-- The contents of the JSON documents written in a trace, in order. -/
def jsonWrites : List Event → List String
  | [] => []
  | Event.jsonWrite c :: rest => c :: jsonWrites rest
  | _ :: rest => jsonWrites rest

/-- Erase the open-mode bits from a trace event, for comparing runs that
differ only in the numeric-sync flag. -/
def maskMode : Event → Event
  | Event.openStore _ => Event.openStore 0
  | e => e

/-! ### Facts about the decimal rendering -/

/-- The number denoted by a list of decimal digit characters, most
significant first. -/
def charsVal : List Char → Nat
  | [] => 0
  | c :: cs => (c.toNat - 48) * 10 ^ cs.length + charsVal cs

lemma digitChar_toNat : ∀ d, d < 10 → (digitChar d).toNat = 48 + d := by decide

lemma charsVal_append_digit (xs : List Char) (c : Char) :
    charsVal (xs ++ [c]) = 10 * charsVal xs + (c.toNat - 48) := by
  induction xs with
  | nil => simp [charsVal]
  | cons x xs ih =>
    have hlen : (xs ++ [c]).length = xs.length + 1 := by simp
    calc charsVal ((x :: xs) ++ [c])
        = (x.toNat - 48) * 10 ^ (xs ++ [c]).length + charsVal (xs ++ [c]) := rfl
      _ = (x.toNat - 48) * (10 ^ xs.length * 10) + (10 * charsVal xs + (c.toNat - 48)) := by
          rw [hlen, ih, pow_succ]
      _ = 10 * ((x.toNat - 48) * 10 ^ xs.length + charsVal xs) + (c.toNat - 48) := by ring
      _ = 10 * charsVal (x :: xs) + (c.toNat - 48) := rfl

lemma decChars_val : ∀ fuel n, n < 10 ^ fuel → charsVal (decChars fuel n) = n := by
  intro fuel
  induction fuel with
  | zero =>
    intro n h
    simp only [pow_zero, Nat.lt_one_iff] at h
    subst h
    rfl
  | succ f ih =>
    intro n h
    by_cases h10 : n < 10
    · simp [decChars, h10, charsVal, digitChar_toNat n h10]
    · have hdiv : n / 10 < 10 ^ f := by
        have hlt : n < 10 ^ f * 10 := by
          rw [← pow_succ]
          exact h
        omega
      have hmod := digitChar_toNat (n % 10) (Nat.mod_lt n (by norm_num))
      simp [decChars, h10, charsVal_append_digit, ih _ hdiv, hmod]
      omega

lemma natDecimal_val (n : Nat) : charsVal (natDecimal n).data = n := by
  have h1 : n < 2 ^ n := Nat.lt_two_pow n
  have h2 : 2 ^ n ≤ 10 ^ n := Nat.pow_le_pow_left (by norm_num) n
  have h3 : 10 ^ n ≤ 10 ^ (n + 1) := Nat.pow_le_pow_right (by norm_num) (Nat.le_succ n)
  exact decChars_val (n + 1) n (by omega)

lemma natDecimal_inj {a b : Nat} (h : natDecimal a = natDecimal b) : a = b := by
  have hv := congrArg (fun s => charsVal s.data) h
  simpa [natDecimal_val] using hv

lemma decChars_length_le : ∀ fuel n k, n < 10 ^ (k + 1) → (decChars fuel n).length ≤ k + 1 := by
  intro fuel
  induction fuel with
  | zero =>
    intro n k _
    simp [decChars]
  | succ f ih =>
    intro n k h
    by_cases h10 : n < 10
    · simp [decChars, h10]
    · cases k with
      | zero =>
        simp only [zero_add, pow_one] at h
        omega
      | succ k =>
        have hdiv : n / 10 < 10 ^ (k + 1) := by
          have hlt : n < 10 ^ (k + 1) * 10 := by
            rw [← pow_succ]
            exact h
          omega
        have := ih (n / 10) k hdiv
        simp [decChars, h10, List.length_append]
        omega

lemma natDecimal_length_le (n k : Nat) (h : n < 10 ^ (k + 1)) :
    (natDecimal n).length ≤ k + 1 :=
  decChars_length_le (n + 1) n k h

/-! ### String helpers -/

lemma string_append_cancel_left {s a b : String} (h : s ++ a = s ++ b) : a = b := by
  apply String.ext
  have hd := congrArg String.data h
  rw [String.data_append, String.data_append] at hd
  exact List.append_cancel_left hd

/-! ### Facts about the basic plan data -/

lemma natDecimal_length_basic {i : Nat} (h : i < N_REC) : (natDecimal i).length ≤ 5 := by
  apply natDecimal_length_le i 4
  have hN : N_REC = 10001 := rfl
  have h5 : (10 : Nat) ^ (4 + 1) = 100000 := by norm_num
  omega

lemma basicKey_eq {i : Nat} (h : i < N_REC) : basicKey i = "key " ++ natDecimal i := by
  have h1 : ("key " ++ natDecimal i).length < 128 := by
    rw [String.length_append]
    have h2 := natDecimal_length_basic h
    have h3 : ("key " : String).length = 4 := rfl
    omega
  unfold basicKey snprintfStr
  rw [if_pos h1]

lemma basicValue_eq {i : Nat} (h : i < N_REC) : basicValue i = "value " ++ natDecimal i := by
  have h1 : ("value " ++ natDecimal i).length < 128 := by
    rw [String.length_append]
    have h2 := natDecimal_length_basic h
    have h3 : ("value " : String).length = 6 := rfl
    omega
  unfold basicValue snprintfStr
  rw [if_pos h1]

lemma basicKey_inj {i j : Nat} (hi : i < N_REC) (hj : j < N_REC) (hne : i ≠ j) :
    basicKey i ≠ basicKey j := by
  rw [basicKey_eq hi, basicKey_eq hj]
  intro h
  exact hne (natDecimal_inj (string_append_cancel_left h))

lemma basicData_length : basicData.length = N_REC := by
  simp [basicData]

lemma basicData_getElem? {i : Nat} (h : i < N_REC) :
    basicData[i]? = some (basicKey i, basicValue i) := by
  simp [basicData, List.getElem?_map, List.getElem?_range h]

/-! ### Facts about the store-write loop and trace extraction -/

lemma storeLoop_all_ok (rc : String → Int) :
    ∀ l : List (String × String), (∀ p ∈ l, rc p.1 = 0) →
      storeLoop rc l = (true, l.map fun p => Event.storeWrite p.1 p.2 true) := by
  intro l
  induction l with
  | nil => intro _; rfl
  | cons p rest ih =>
    intro h
    have hp : rc p.1 = 0 := h p (List.mem_cons_self p rest)
    have hrest := ih (fun q hq => h q (List.mem_cons_of_mem p hq))
    simp [storeLoop, hp, hrest]

lemma storeLoop_first_fail (rc : String → Int) :
    ∀ (l : List (String × String)) (j : Nat) (pj : String × String),
      l[j]? = some pj →
      (∀ i p, i < j → l[i]? = some p → rc p.1 = 0) →
      rc pj.1 ≠ 0 →
      storeLoop rc l = (false,
        ((l.take j).map fun p => Event.storeWrite p.1 p.2 true) ++
          [Event.storeWrite pj.1 pj.2 false,
           Event.errMsg ("gdbm_store failed, rc " ++ intDecimal (rc pj.1) ++ ", key "
             ++ pj.1 ++ "\n")]) := by
  intro l
  induction l with
  | nil =>
    intro j pj h
    simp at h
  | cons p rest ih =>
    intro j pj hget hpre hfail
    cases j with
    | zero =>
      simp only [List.getElem?_cons_zero, Option.some.injEq] at hget
      subst hget
      simp [storeLoop, hfail]
    | succ j =>
      have hp : rc p.1 = 0 := hpre 0 p (Nat.succ_pos j) (by simp)
      have hrest := ih j pj (by simpa using hget)
        (fun i q hi hq => hpre (i + 1) q (by omega) (by simpa using hq)) hfail
      simp [storeLoop, hp, hrest]

lemma storeKV_map (l : List (String × String)) :
    storeKV (l.map fun p => Event.storeWrite p.1 p.2 true) = l := by
  induction l with
  | nil => rfl
  | cons p rest ih => simp [storeKV, ih]

lemma countOk_map_true (l : List (String × String)) :
    countOkStores (l.map fun p => Event.storeWrite p.1 p.2 true) = l.length := by
  induction l with
  | nil => rfl
  | cons p rest ih =>
    simp [countOkStores, isOkStore, List.filter] at ih ⊢
    omega

lemma storeLoop_true_shape (rc : String → Int) :
    ∀ l : List (String × String), (storeLoop rc l).1 = true →
      (storeLoop rc l).2 = l.map fun p => Event.storeWrite p.1 p.2 true := by
  intro l
  induction l with
  | nil => intro _; rfl
  | cons p rest ih =>
    intro h
    by_cases hp : rc p.1 = 0
    · simp only [storeLoop, if_pos hp] at h ⊢
      simp [ih h]
    · simp [storeLoop, hp] at h

lemma storeLoop_events (rc : String → Int) :
    ∀ (l : List (String × String)) (e : Event), e ∈ (storeLoop rc l).2 →
      (∃ k v ok, e = Event.storeWrite k v ok) ∨ ∃ m, e = Event.errMsg m := by
  intro l
  induction l with
  | nil => intro e h; simp [storeLoop] at h
  | cons p rest ih =>
    intro e h
    by_cases hp : rc p.1 = 0
    · simp only [storeLoop, if_pos hp, List.mem_cons] at h
      rcases h with h | h
      · exact Or.inl ⟨p.1, p.2, true, h⟩
      · exact ih e h
    · simp only [storeLoop, if_neg hp, List.mem_cons, List.mem_singleton] at h
      rcases h with h | h | h
      · exact Or.inl ⟨p.1, p.2, false, h⟩
      · exact Or.inr ⟨_, h⟩
      · simp at h

lemma jsonWrite_not_mem_storeLoop (rc : String → Int) (l : List (String × String))
    (c : String) : Event.jsonWrite c ∉ (storeLoop rc l).2 := by
  intro h
  rcases storeLoop_events rc l _ h with ⟨k, v, ok, he⟩ | ⟨m, he⟩ <;> simp at he

lemma closeStore_not_mem_storeLoop (rc : String → Int) (l : List (String × String)) :
    Event.closeStore ∉ (storeLoop rc l).2 := by
  intro h
  rcases storeLoop_events rc l _ h with ⟨k, v, ok, he⟩ | ⟨m, he⟩ <;> simp at he

lemma storeKV_append (a b : List Event) : storeKV (a ++ b) = storeKV a ++ storeKV b := by
  induction a with
  | nil => rfl
  | cons e rest ih => cases e <;> simp [storeKV, ih]

lemma jsonWrites_append (a b : List Event) :
    jsonWrites (a ++ b) = jsonWrites a ++ jsonWrites b := by
  induction a with
  | nil => rfl
  | cons e rest ih => cases e <;> simp [jsonWrites, ih]

lemma jsonWrites_map_true (l : List (String × String)) :
    jsonWrites (l.map fun p => Event.storeWrite p.1 p.2 true) = [] := by
  induction l with
  | nil => rfl
  | cons p rest ih => simp [jsonWrites, ih]

lemma countOkStores_append (a b : List Event) :
    countOkStores (a ++ b) = countOkStores a + countOkStores b := by
  simp [countOkStores, List.filter_append]

/-- The shape of a fully successful basic-plan run. -/
lemma gen_basic_success (env : Env) (ns : Bool)
    (hopen : env.openOk = true) (hfo : env.fopenOk = true)
    (hrc : ∀ k, env.storeRC k = 0) :
    gen_plan_basic env ns = (Outcome.ret 0,
      Event.openStore (GDBM_NEWDB ||| (if ns then GDBM_NUMSYNC else 0)) ::
        (basicData.map fun p => Event.storeWrite p.1 p.2 true) ++
        [Event.closeStore,
         Event.jsonWrite (jsonHeader env.time basicData.length
           ++ renderPairsLoop true basicData ++ "]\x7d\n")]) := by
  have hl := storeLoop_all_ok env.storeRC basicData (fun p _ => hrc p.1)
  simp [gen_plan_basic, hopen, hfo, hl]

/-- The shape of a successful empty-plan run. -/
lemma gen_empty_success (env : Env) (ns : Bool)
    (hopen : env.openOk = true) (hrc : env.countRC = 0) (hcv : env.countVal = 0)
    (hfo : env.fopenOk = true) :
    gen_plan_empty env ns = (Outcome.ret 0,
      [Event.openStore (GDBM_NEWDB ||| (if ns then GDBM_NUMSYNC else 0)),
       Event.countQuery, Event.closeStore,
       Event.jsonWrite (jsonHeader env.time 0 ++ "]\x7d\n")]) := by
  simp [gen_plan_empty, hopen, hrc, hcv, hfo]

/-- The JSON rendering of one record. -/
def pairJson (p : String × String) : String := "[\"" ++ p.1 ++ "\",\"" ++ p.2 ++ "\"]"

/-- Comma-separated rendering of a record list, in list order: the
reference form against which the first-flag loop is checked. -/
def renderPairsOrdered : List (String × String) → String
  | [] => ""
  | [p] => pairJson p
  | p :: q :: rest => pairJson p ++ "," ++ renderPairsOrdered (q :: rest)

lemma renderPairsLoop_eq : ∀ l : List (String × String),
    renderPairsLoop true l = renderPairsOrdered l ∧
    (l ≠ [] → renderPairsLoop false l = "," ++ renderPairsOrdered l) := by
  intro l
  induction l with
  | nil => exact ⟨rfl, fun h => absurd rfl h⟩
  | cons p rest ih =>
    obtain ⟨ht, hf⟩ := ih
    cases rest with
    | nil =>
      constructor
      · apply String.ext
        simp [renderPairsLoop, renderPairsOrdered, pairJson, String.data_append]
      · intro _
        apply String.ext
        simp [renderPairsLoop, renderPairsOrdered, pairJson, String.data_append]
    | cons q rest2 =>
      have hne : (q :: rest2 : List (String × String)) ≠ [] := by simp
      have h1 : ∀ b : Bool, renderPairsLoop b (p :: q :: rest2)
          = (if b then "" else ",") ++ "[\"" ++ p.1 ++ "\",\"" ++ p.2 ++ "\"]"
            ++ renderPairsLoop false (q :: rest2) := fun b => rfl
      constructor
      · rw [h1 true, hf hne]
        apply String.ext
        simp [renderPairsOrdered, pairJson, String.data_append]
      · intro _
        rw [h1 false, hf hne]
        apply String.ext
        simp [renderPairsOrdered, pairJson, String.data_append]

lemma renderPairsLoop_true_eq (l : List (String × String)) :
    renderPairsLoop true l = renderPairsOrdered l := (renderPairsLoop_eq l).1

/-- The bytes of the JSON document of a run with zero records, with the
format literals concatenated. -/
lemma emptyJson_shape (t : Nat) :
    jsonHeader t 0 ++ "]\x7d\n" =
      "\x7b  \"generated_by\":\"testgen\",  \"generated_time\":\"" ++ natDecimal t
        ++ "\",  \"data_records\": 0,  \"data\": []\x7d\n" := by
  have h0 : natDecimal 0 = "0" := by decide
  unfold jsonHeader
  rw [h0]
  rw [show ("\x7b" ++ "  \"generated_by\":\"testgen\"," ++ "  \"generated_time\":\"" : String)
    = "\x7b  \"generated_by\":\"testgen\",  \"generated_time\":\"" from by decide]
  simp only [String.append_assoc]
  congr 2

lemma storeKV_cons_open (m : Nat) (tr : List Event) :
    storeKV (Event.openStore m :: tr) = storeKV tr := rfl

lemma storeKV_cons_close (tr : List Event) :
    storeKV (Event.closeStore :: tr) = storeKV tr := rfl

lemma storeKV_cons_json (c : String) (tr : List Event) :
    storeKV (Event.jsonWrite c :: tr) = storeKV tr := rfl

lemma jsonWrites_cons_open (m : Nat) (tr : List Event) :
    jsonWrites (Event.openStore m :: tr) = jsonWrites tr := rfl

lemma jsonWrites_cons_close (tr : List Event) :
    jsonWrites (Event.closeStore :: tr) = jsonWrites tr := rfl

lemma jsonWrites_cons_json (c : String) (tr : List Event) :
    jsonWrites (Event.jsonWrite c :: tr) = c :: jsonWrites tr := rfl

lemma countOk_cons_open (m : Nat) (tr : List Event) :
    countOkStores (Event.openStore m :: tr) = countOkStores tr := by
  simp [countOkStores, List.filter, isOkStore]

lemma countOk_cons_close (tr : List Event) :
    countOkStores (Event.closeStore :: tr) = countOkStores tr := by
  simp [countOkStores, List.filter, isOkStore]

lemma countOk_cons_json (c : String) (tr : List Event) :
    countOkStores (Event.jsonWrite c :: tr) = countOkStores tr := by
  simp [countOkStores, List.filter, isOkStore]

/-- All externally visible facts of a fully successful basic-plan run. -/
lemma basic_success_facts (env : Env) (ns : Bool)
    (ho : env.openOk = true) (hf : env.fopenOk = true) (hs : ∀ k, env.storeRC k = 0) :
    (gen_plan_basic env ns).1 = Outcome.ret 0 ∧
    storeKV (gen_plan_basic env ns).2 = basicData ∧
    countOkStores (gen_plan_basic env ns).2 = basicData.length ∧
    jsonWrites (gen_plan_basic env ns).2 =
      [jsonHeader env.time N_REC ++ renderPairsOrdered basicData ++ "]\x7d\n"] := by
  rw [gen_basic_success env ns ho hf hs]
  dsimp only
  refine ⟨rfl, ?_, ?_, ?_⟩
  · rw [storeKV_append, storeKV_cons_open, storeKV_map]
    simp [storeKV]
  · rw [countOkStores_append, countOk_cons_open, countOk_map_true]
    simp [countOkStores, List.filter, isOkStore]
  · rw [jsonWrites_append, jsonWrites_cons_open, jsonWrites_map_true]
    simp [jsonWrites, basicData_length, renderPairsLoop_true_eq]

lemma jsonWrites_map_mask (tr : List Event) :
    jsonWrites (tr.map maskMode) = jsonWrites tr := by
  induction tr with
  | nil => rfl
  | cons e rest ih => cases e <;> simp [maskMode, jsonWrites, ih]

lemma maskMode_basic (env : Env) (ns1 ns2 : Bool) :
    (gen_plan_basic env ns1).1 = (gen_plan_basic env ns2).1 ∧
    (gen_plan_basic env ns1).2.map maskMode = (gen_plan_basic env ns2).2.map maskMode := by
  unfold gen_plan_basic
  by_cases ho : env.openOk
  · by_cases hw : (storeLoop env.storeRC basicData).1 <;>
      by_cases hf : env.fopenOk <;>
        simp [ho, hw, hf, maskMode]
  · simp [ho]

lemma maskMode_empty (env : Env) (ns1 ns2 : Bool) :
    (gen_plan_empty env ns1).1 = (gen_plan_empty env ns2).1 ∧
    (gen_plan_empty env ns1).2.map maskMode = (gen_plan_empty env ns2).2.map maskMode := by
  unfold gen_plan_empty
  by_cases ho : env.openOk
  · by_cases hc : env.countRC ≠ 0
    · simp [ho, hc, maskMode]
    · by_cases hv : env.countVal ≠ 0 <;> by_cases hf : env.fopenOk <;>
        simp [ho, hc, hv, hf, maskMode]
  · simp [ho]

/-! ### The claims -/

/-- C1: the basic plan generates exactly 10001 records; record i is the
pair ("key i", "value i") with i rendered in decimal, at index i of the
sequence, so the order is strictly increasing in i; on a successful run
the store-write calls follow exactly that sequence and the JSON data
array renders the same sequence in the same order. -/
theorem C1_basic_plan_order :
    basicData.length = N_REC ∧
    (∀ i, i < N_REC →
      basicData[i]? = some ("key " ++ natDecimal i, "value " ++ natDecimal i)) ∧
    (∀ env ns, env.openOk = true → env.fopenOk = true → (∀ k, env.storeRC k = 0) →
      (gen_plan_basic env ns).1 = Outcome.ret 0 ∧
      storeKV (gen_plan_basic env ns).2 = basicData ∧
      jsonWrites (gen_plan_basic env ns).2 =
        [jsonHeader env.time N_REC ++ renderPairsOrdered basicData ++ "]\x7d\n"]) := by
  refine ⟨basicData_length, ?_, ?_⟩
  · intro i hi
    rw [basicData_getElem? hi, basicKey_eq hi, basicValue_eq hi]
  · intro env ns ho hf hs
    obtain ⟨h1, h2, _, h4⟩ := basic_success_facts env ns ho hf hs
    exact ⟨h1, h2, h4⟩

/-- Witness for C1 at concrete inputs. -/
theorem C1_witness :
    basicData.length = N_REC ∧
    basicData[0]? = some ("key " ++ natDecimal 0, "value " ++ natDecimal 0) ∧
    (gen_plan_basic (Env.mk true 0 0 (fun _ => 0) true 0) false).1 = Outcome.ret 0 := by
  obtain ⟨h1, h2, h3⟩ := C1_basic_plan_order
  exact ⟨h1, h2 0 (by decide),
    (h3 (Env.mk true 0 0 (fun _ => 0) true 0) false rfl rfl (fun k => rfl)).1⟩

/-- Facts about any JSON document written by a basic-plan run. -/
lemma basic_json_facts (env : Env) (ns : Bool) (c : String)
    (hc : Event.jsonWrite c ∈ (gen_plan_basic env ns).2) :
    c = jsonHeader env.time basicData.length ++ renderPairsLoop true basicData ++ "]\x7d\n" ∧
    countOkStores (gen_plan_basic env ns).2 = basicData.length := by
  unfold gen_plan_basic at hc ⊢
  by_cases ho : env.openOk
  · simp only [if_pos ho] at hc ⊢
    by_cases hw : (storeLoop env.storeRC basicData).1
    · rw [storeLoop_true_shape env.storeRC basicData hw] at hc ⊢
      by_cases hfo : env.fopenOk
      · simp only [if_pos hw, if_pos hfo] at hc ⊢
        refine ⟨?_, ?_⟩
        · simp at hc
          exact hc
        · rw [countOkStores_append, countOk_cons_open, countOk_map_true]
          simp [countOkStores, List.filter, isOkStore]
      · simp only [if_pos hw, if_neg hfo] at hc
        simp at hc
    · simp only [if_neg hw] at hc
      rcases List.mem_cons.mp hc with h | h
      · simp at h
      · exact absurd h (jsonWrite_not_mem_storeLoop _ _ _)
  · simp only [if_neg ho] at hc
    simp at hc

/-- Facts about any JSON document written by an empty-plan run. -/
lemma empty_json_facts (env : Env) (ns : Bool) (c : String)
    (hc : Event.jsonWrite c ∈ (gen_plan_empty env ns).2) :
    c = jsonHeader env.time 0 ++ "]\x7d\n" ∧
    countOkStores (gen_plan_empty env ns).2 = 0 := by
  unfold gen_plan_empty at hc ⊢
  by_cases ho : env.openOk
  · simp only [if_pos ho] at hc ⊢
    by_cases hrc : env.countRC ≠ 0
    · simp only [if_pos hrc] at hc
      simp at hc
    · simp only [if_neg hrc] at hc ⊢
      by_cases hcv : env.countVal ≠ 0
      · simp only [if_pos hcv] at hc
        simp at hc
      · simp only [if_neg hcv] at hc ⊢
        by_cases hfo : env.fopenOk
        · simp only [if_pos hfo] at hc ⊢
          refine ⟨?_, by simp [countOkStores, List.filter, isOkStore]⟩
          simp at hc
          exact hc
        · simp only [if_neg hfo] at hc
          simp at hc
  · simp only [if_neg ho] at hc
    simp at hc

/-- C2: every JSON document the tool emits renders some record list ps,
with its data_records field filled with the length of ps and with the
data array rendering ps itself; the number of successful store-write
calls of the run equals that same length; under the empty plan ps is
the empty list, under the basic plan it is the full basic dataset. -/
theorem C2_count_invariant (env : Env) (a : Args) (c : String)
    (hc : Event.jsonWrite c ∈ (mainRun env a).2) :
    ∃ ps : List (String × String),
      c = jsonHeader env.time ps.length ++ renderPairsLoop true ps ++ "]\x7d\n" ∧
      countOkStores (mainRun env a).2 = ps.length ∧
      (a.plan = "empty" → ps = []) ∧
      (a.plan = "basic" → ps = basicData) := by
  obtain ⟨fn, jn, p, ns⟩ := a
  cases fn <;> cases jn <;> simp only [mainRun] at hc ⊢ <;> try simp at hc
  by_cases hb : p = "basic"
  · subst hb
    simp only [if_pos rfl] at hc ⊢
    obtain ⟨h1, h2⟩ := basic_json_facts env ns c hc
    refine ⟨basicData, h1, h2, fun h => absurd h (by decide), fun _ => rfl⟩
  · by_cases he : p = "empty"
    · subst he
      simp only [if_neg hb, if_pos rfl] at hc ⊢
      obtain ⟨h1, h2⟩ := empty_json_facts env ns c hc
      refine ⟨[], ?_, h2, fun _ => rfl, fun h => absurd h (by decide)⟩
      rw [h1, show renderPairsLoop true ([] : List (String × String)) = "" from rfl,
        String.append_empty]
      simp
    · simp only [if_neg hb, if_neg he] at hc
      simp at hc

/-- Witness for C2 at concrete inputs: a successful empty-plan run. -/
theorem C2_witness :
    Event.jsonWrite (jsonHeader 0 0 ++ "]\x7d\n")
      ∈ (mainRun (Env.mk true 0 0 (fun _ => 0) true 0)
          (Args.mk (some "t.db") (some "t.json") "empty" false)).2 ∧
    ∃ ps : List (String × String),
      jsonHeader 0 0 ++ "]\x7d\n"
        = jsonHeader 0 ps.length ++ renderPairsLoop true ps ++ "]\x7d\n" ∧
      countOkStores (mainRun (Env.mk true 0 0 (fun _ => 0) true 0)
          (Args.mk (some "t.db") (some "t.json") "empty" false)).2 = ps.length ∧
      ((Args.mk (some "t.db") (some "t.json") "empty" false).plan = "empty" → ps = []) ∧
      ((Args.mk (some "t.db") (some "t.json") "empty" false).plan = "basic" →
        ps = basicData) := by
  refine ⟨by decide, ?_⟩
  exact C2_count_invariant (Env.mk true 0 0 (fun _ => 0) true 0)
    (Args.mk (some "t.db") (some "t.json") "empty" false) _ (by decide)

/-- C3: two successful basic-plan runs with the same numeric-sync flag,
taken in arbitrary environments (different wall-clock times, different
external store behaviours), write the same key-value sequence to the
store and render the identical byte string as their JSON data array:
generation depends only on the plan inputs. -/
theorem C3_basic_determinism (e1 e2 : Env) (ns : Bool)
    (h1o : e1.openOk = true) (h1f : e1.fopenOk = true) (h1s : ∀ k, e1.storeRC k = 0)
    (h2o : e2.openOk = true) (h2f : e2.fopenOk = true) (h2s : ∀ k, e2.storeRC k = 0) :
    storeKV (gen_plan_basic e1 ns).2 = storeKV (gen_plan_basic e2 ns).2 ∧
    jsonWrites (gen_plan_basic e1 ns).2 =
      [jsonHeader e1.time N_REC ++ renderPairsOrdered basicData ++ "]\x7d\n"] ∧
    jsonWrites (gen_plan_basic e2 ns).2 =
      [jsonHeader e2.time N_REC ++ renderPairsOrdered basicData ++ "]\x7d\n"] := by
  obtain ⟨_, k1, _, j1⟩ := basic_success_facts e1 ns h1o h1f h1s
  obtain ⟨_, k2, _, j2⟩ := basic_success_facts e2 ns h2o h2f h2s
  exact ⟨k1.trans k2.symm, j1, j2⟩

/-- Witness for C3 at two concrete environments with different times. -/
theorem C3_witness :
    storeKV (gen_plan_basic (Env.mk true 0 0 (fun _ => 0) true 11) false).2 =
      storeKV (gen_plan_basic (Env.mk true 0 0 (fun _ => 0) true 22) false).2 ∧
    jsonWrites (gen_plan_basic (Env.mk true 0 0 (fun _ => 0) true 11) false).2 =
      [jsonHeader 11 N_REC ++ renderPairsOrdered basicData ++ "]\x7d\n"] ∧
    jsonWrites (gen_plan_basic (Env.mk true 0 0 (fun _ => 0) true 22) false).2 =
      [jsonHeader 22 N_REC ++ renderPairsOrdered basicData ++ "]\x7d\n"] :=
  C3_basic_determinism (Env.mk true 0 0 (fun _ => 0) true 11)
    (Env.mk true 0 0 (fun _ => 0) true 22) false
    rfl rfl (fun _ => rfl) rfl rfl (fun _ => rfl)

/-- C4: for every plan and environment, runs that differ only in the
numeric-sync flag have the same outcome and the same trace up to the
open-mode bits of the store-open call; in particular the JSON documents
written are byte-identical. The flag reaches only the gdbm_open mode. -/
theorem C4_numsync_independent (env : Env) (o j : Option String) (p : String) :
    (mainRun env (Args.mk o j p true)).1 = (mainRun env (Args.mk o j p false)).1 ∧
    (mainRun env (Args.mk o j p true)).2.map maskMode =
      (mainRun env (Args.mk o j p false)).2.map maskMode ∧
    jsonWrites (mainRun env (Args.mk o j p true)).2 =
      jsonWrites (mainRun env (Args.mk o j p false)).2 := by
  have hjw : ∀ a b : Outcome × List Event,
      a.2.map maskMode = b.2.map maskMode → jsonWrites a.2 = jsonWrites b.2 := by
    intro a b h
    rw [← jsonWrites_map_mask a.2, ← jsonWrites_map_mask b.2, h]
  cases o <;> cases j <;> simp only [mainRun]
  · exact ⟨by trivial, by trivial, by trivial⟩
  · exact ⟨by trivial, by trivial, by trivial⟩
  · exact ⟨by trivial, by trivial, by trivial⟩
  · by_cases hb : p = "basic"
    · simp only [if_pos hb]
      obtain ⟨h1, h2⟩ := maskMode_basic env true false
      exact ⟨h1, h2, hjw _ _ h2⟩
    · by_cases he : p = "empty"
      · simp only [if_neg hb, if_pos he]
        obtain ⟨h1, h2⟩ := maskMode_empty env true false
        exact ⟨h1, h2, hjw _ _ h2⟩
      · simp only [if_neg hb, if_neg he]
        exact ⟨by trivial, by trivial, by trivial⟩

/-- The shape of a basic-plan run whose write loop fails. -/
lemma gen_basic_fail_shape (env : Env) (ns : Bool)
    (ho : env.openOk = true) (hw : (storeLoop env.storeRC basicData).1 = false) :
    gen_plan_basic env ns = (Outcome.ret 1,
      Event.openStore (GDBM_NEWDB ||| (if ns then GDBM_NUMSYNC else 0)) ::
        (storeLoop env.storeRC basicData).2) := by
  simp [gen_plan_basic, ho, hw]

/-- C5: if the store write of record j fails (all earlier writes having
succeeded), the basic plan returns 1 immediately: no JSON document is
written, the store-write calls stop right after the failing one, and the
diagnostic on the error stream names the offending key. -/
theorem C5_store_write_failure (env : Env) (ns : Bool) (j : Nat)
    (hopen : env.openOk = true) (hj : j < N_REC)
    (hfail : env.storeRC (basicKey j) ≠ 0)
    (hpre : ∀ i, i < j → env.storeRC (basicKey i) = 0) :
    (gen_plan_basic env ns).1 = Outcome.ret 1 ∧
    (∀ c, Event.jsonWrite c ∉ (gen_plan_basic env ns).2) ∧
    storeKV (gen_plan_basic env ns).2 = basicData.take (j + 1) ∧
    Event.errMsg ("gdbm_store failed, rc " ++ intDecimal (env.storeRC (basicKey j))
      ++ ", key " ++ basicKey j ++ "\n") ∈ (gen_plan_basic env ns).2 := by
  have hget : basicData[j]? = some (basicKey j, basicValue j) := basicData_getElem? hj
  have hpre2 : ∀ i p, i < j → basicData[i]? = some p → env.storeRC p.1 = 0 := by
    intro i p hi hp
    have hiN : i < N_REC := lt_trans hi hj
    have hgi := basicData_getElem? hiN
    rw [hp] at hgi
    have hpq := Option.some.inj hgi
    rw [hpq]
    exact hpre i hi
  have hloop := storeLoop_first_fail env.storeRC basicData j (basicKey j, basicValue j)
    hget hpre2 hfail
  have htake : basicData.take (j + 1) = basicData.take j ++ [(basicKey j, basicValue j)] := by
    rw [List.take_succ, hget]
    rfl
  have hw : (storeLoop env.storeRC basicData).1 = false := by rw [hloop]
  rw [gen_basic_fail_shape env ns hopen hw, hloop]
  dsimp only
  refine ⟨rfl, ?_, ?_, ?_⟩
  · intro c hc
    simp only [List.mem_cons, List.mem_append, List.mem_map,
      List.mem_singleton] at hc
    rcases hc with h | ⟨q, hq, h⟩ | h | h <;> simp at h
  · rw [storeKV_cons_open, storeKV_append, storeKV_map, htake]
    rfl
  · simp

/-- Witness for C5: the very first store write fails. -/
theorem C5_witness :
    (Env.mk true 0 0 (fun k => if k = "key 0" then -1 else 0) true 0).storeRC
        (basicKey 0) ≠ 0 ∧
    ((gen_plan_basic (Env.mk true 0 0 (fun k => if k = "key 0" then -1 else 0) true 0)
        false).1 = Outcome.ret 1 ∧
      (∀ c, Event.jsonWrite c ∉ (gen_plan_basic
        (Env.mk true 0 0 (fun k => if k = "key 0" then -1 else 0) true 0) false).2) ∧
      storeKV (gen_plan_basic
        (Env.mk true 0 0 (fun k => if k = "key 0" then -1 else 0) true 0) false).2 =
        basicData.take (0 + 1) ∧
      Event.errMsg ("gdbm_store failed, rc "
          ++ intDecimal ((Env.mk true 0 0 (fun k => if k = "key 0" then -1 else 0) true
            0).storeRC (basicKey 0))
          ++ ", key " ++ basicKey 0 ++ "\n")
        ∈ (gen_plan_basic
            (Env.mk true 0 0 (fun k => if k = "key 0" then -1 else 0) true 0) false).2) :=
  ⟨by decide,
    C5_store_write_failure (Env.mk true 0 0 (fun k => if k = "key 0" then -1 else 0) true 0)
      false 0 rfl (by decide) (by decide) (fun i hi => absurd hi (Nat.not_lt_zero i))⟩

/-- C6: any plan name other than basic and empty makes the run return 1
with only the unknown-plan diagnostic on the error stream: no store is
opened, nothing is written to a store, and no JSON document is written,
because the dispatch in main precedes every store and file operation. -/
theorem C6_unknown_plan (env : Env) (fn jn p : String) (ns : Bool)
    (hb : p ≠ "basic") (he : p ≠ "empty") :
    mainRun env (Args.mk (some fn) (some jn) p ns) =
      (Outcome.ret 1, [Event.errMsg ("Unknown test plan " ++ p ++ "\n")]) ∧
    (∀ m, Event.openStore m ∉ (mainRun env (Args.mk (some fn) (some jn) p ns)).2) ∧
    (∀ c, Event.jsonWrite c ∉ (mainRun env (Args.mk (some fn) (some jn) p ns)).2) ∧
    (∀ k v ok, Event.storeWrite k v ok ∉
      (mainRun env (Args.mk (some fn) (some jn) p ns)).2) := by
  have hm : mainRun env (Args.mk (some fn) (some jn) p ns) =
      (Outcome.ret 1, [Event.errMsg ("Unknown test plan " ++ p ++ "\n")]) := by
    simp only [mainRun, if_neg hb, if_neg he]
  refine ⟨hm, ?_, ?_, ?_⟩
  · intro m
    rw [hm]
    simp
  · intro c
    rw [hm]
    simp
  · intro k v ok
    rw [hm]
    simp

/-- Witness for C6 with the plan name nosuchplan. -/
theorem C6_witness :
    mainRun (Env.mk true 0 0 (fun _ => 0) true 0)
        (Args.mk (some "t.db") (some "t.json") "nosuchplan" false) =
      (Outcome.ret 1, [Event.errMsg ("Unknown test plan " ++ "nosuchplan" ++ "\n")]) ∧
    (∀ m, Event.openStore m ∉ (mainRun (Env.mk true 0 0 (fun _ => 0) true 0)
      (Args.mk (some "t.db") (some "t.json") "nosuchplan" false)).2) ∧
    (∀ c, Event.jsonWrite c ∉ (mainRun (Env.mk true 0 0 (fun _ => 0) true 0)
      (Args.mk (some "t.db") (some "t.json") "nosuchplan" false)).2) ∧
    (∀ k v ok, Event.storeWrite k v ok ∉ (mainRun (Env.mk true 0 0 (fun _ => 0) true 0)
      (Args.mk (some "t.db") (some "t.json") "nosuchplan" false)).2) :=
  C6_unknown_plan (Env.mk true 0 0 (fun _ => 0) true 0) "t.db" "t.json" "nosuchplan" false
    (by decide) (by decide)

/-- The shape of a basic-plan run with all writes succeeding and fopen ok. -/
lemma gen_basic_okwrites_shape (env : Env) (ns : Bool)
    (ho : env.openOk = true) (hw : (storeLoop env.storeRC basicData).1 = true)
    (hfo : env.fopenOk = true) :
    gen_plan_basic env ns = (Outcome.ret 0,
      (Event.openStore (GDBM_NEWDB ||| (if ns then GDBM_NUMSYNC else 0)) ::
        (storeLoop env.storeRC basicData).2) ++
        [Event.closeStore, Event.jsonWrite (jsonHeader env.time basicData.length
          ++ renderPairsLoop true basicData ++ "]\x7d\n")]) := by
  simp [gen_plan_basic, ho, hw, hfo]

/-- The shape of a basic-plan run with all writes succeeding but fopen failing. -/
lemma gen_basic_fopen_fail_shape (env : Env) (ns : Bool)
    (ho : env.openOk = true) (hw : (storeLoop env.storeRC basicData).1 = true)
    (hfo : env.fopenOk = false) :
    gen_plan_basic env ns = (Outcome.ret 1,
      (Event.openStore (GDBM_NEWDB ||| (if ns then GDBM_NUMSYNC else 0)) ::
        (storeLoop env.storeRC basicData).2) ++
        [Event.closeStore, Event.errMsg "fopen failed\n"]) := by
  simp [gen_plan_basic, ho, hw, hfo]

/-- C7 counterexample: with the store reporting a non-zero count right
after creation, the empty plan terminates through the failed assert, by
SIGABRT, and in particular not with exit status 1. -/
theorem C7_counterexample :
    (gen_plan_empty (Env.mk true 0 5 (fun _ => 0) true 0) false).1 = Outcome.sigabrt ∧
    (gen_plan_empty (Env.mk true 0 5 (fun _ => 0) true 0) false).1 ≠ Outcome.ret 1 := by
  decide

/-- C7 amended: under the empty plan, a non-zero record count right after
creation makes the run terminate through the failed assert, that is by
SIGABRT rather than with exit status 1, and no JSON document is written. -/
theorem C7_empty_consistency_abort (env : Env) (ns : Bool)
    (hopen : env.openOk = true) (hrc : env.countRC = 0) (hcv : env.countVal ≠ 0) :
    (gen_plan_empty env ns).1 = Outcome.sigabrt ∧
    (∀ c, Event.jsonWrite c ∉ (gen_plan_empty env ns).2) := by
  have hne : ¬env.countRC ≠ 0 := by simp [hrc]
  unfold gen_plan_empty
  simp only [if_pos hopen, if_neg hne, if_pos hcv]
  refine ⟨by trivial, ?_⟩
  intro c
  simp

/-- Witness for the amended C7. -/
theorem C7_witness :
    (gen_plan_empty (Env.mk true 0 5 (fun _ => 0) true 0) false).1 = Outcome.sigabrt ∧
    (∀ c, Event.jsonWrite c
      ∉ (gen_plan_empty (Env.mk true 0 5 (fun _ => 0) true 0) false).2) :=
  C7_empty_consistency_abort (Env.mk true 0 5 (fun _ => 0) true 0) false
    rfl rfl (by decide)

/-- The empty-plan JSON content asserted by the claim: no whitespace
inside the object at all. -/
def claimedEmptyJson (t : Nat) : String :=
  "\x7b\"generated_by\":\"testgen\",\"generated_time\":\"" ++ natDecimal t
    ++ "\",\"data_records\":0,\"data\":[]\x7d\n"

/-- C8 counterexample: the document a successful empty-plan run writes is
not the whitespace-free byte string the claim asserts; the concatenated
fprintf format literals put two spaces before every field name and one
space after the data_records and data colons. -/
theorem C8_counterexample :
    (gen_plan_empty (Env.mk true 0 0 (fun _ => 0) true 0) false).1 = Outcome.ret 0 ∧
    jsonWrites (gen_plan_empty (Env.mk true 0 0 (fun _ => 0) true 0) false).2 =
      [jsonHeader 0 0 ++ "]\x7d\n"] ∧
    jsonHeader 0 0 ++ "]\x7d\n" ≠ claimedEmptyJson 0 := by
  decide

/-- C8 amended: a successful empty-plan run writes exactly one JSON
document whose bytes are the object with two spaces before each field
name, a space after the data_records and data colons, the epoch-seconds
timestamp in decimal, and a single trailing newline. -/
theorem C8_empty_json_bytes (env : Env) (ns : Bool)
    (hopen : env.openOk = true) (hrc : env.countRC = 0) (hcv : env.countVal = 0)
    (hfo : env.fopenOk = true) :
    (gen_plan_empty env ns).1 = Outcome.ret 0 ∧
    jsonWrites (gen_plan_empty env ns).2 =
      ["\x7b  \"generated_by\":\"testgen\",  \"generated_time\":\"" ++ natDecimal env.time
        ++ "\",  \"data_records\": 0,  \"data\": []\x7d\n"] := by
  rw [gen_empty_success env ns hopen hrc hcv hfo]
  refine ⟨rfl, ?_⟩
  dsimp only
  rw [show jsonWrites [Event.openStore (GDBM_NEWDB ||| (if ns then GDBM_NUMSYNC else 0)),
      Event.countQuery, Event.closeStore,
      Event.jsonWrite (jsonHeader env.time 0 ++ "]\x7d\n")]
    = [jsonHeader env.time 0 ++ "]\x7d\n"] from rfl]
  rw [emptyJson_shape env.time]

/-- Witness for the amended C8. -/
theorem C8_witness :
    (gen_plan_empty (Env.mk true 0 0 (fun _ => 0) true 7) false).1 = Outcome.ret 0 ∧
    jsonWrites (gen_plan_empty (Env.mk true 0 0 (fun _ => 0) true 7) false).2 =
      ["\x7b  \"generated_by\":\"testgen\",  \"generated_time\":\""
        ++ natDecimal (Env.mk true 0 0 (fun _ => 0) true 7).time
        ++ "\",  \"data_records\": 0,  \"data\": []\x7d\n"] :=
  C8_empty_json_bytes (Env.mk true 0 0 (fun _ => 0) true 7) false rfl rfl rfl rfl

/-- C9 counterexample: when the count query fails under the empty plan,
the run returns 1 with the store opened but never closed; the close call
is skipped on this failure path. -/
theorem C9_counterexample :
    (gen_plan_empty (Env.mk true 1 0 (fun _ => 0) true 0) false).1 = Outcome.ret 1 ∧
    Event.openStore GDBM_NEWDB
      ∈ (gen_plan_empty (Env.mk true 1 0 (fun _ => 0) true 0) false).2 ∧
    Event.closeStore ∉ (gen_plan_empty (Env.mk true 1 0 (fun _ => 0) true 0) false).2 := by
  decide

/-- C9 amended: the store handle is closed exactly on the runs that reach
the close call. For the empty plan that means open succeeded and the
count query returned zero; for the basic plan it means open succeeded
and every store write succeeded. On the count-query-failure, assert and
store-write-failure paths the run ends without closing the handle. -/
theorem C9_close_scope (env : Env) (ns : Bool) :
    (Event.closeStore ∈ (gen_plan_empty env ns).2 ↔
      env.openOk = true ∧ env.countRC = 0 ∧ env.countVal = 0) ∧
    (Event.closeStore ∈ (gen_plan_basic env ns).2 ↔
      env.openOk = true ∧ (storeLoop env.storeRC basicData).1 = true) := by
  constructor
  · unfold gen_plan_empty
    by_cases ho : env.openOk
    · simp only [if_pos ho]
      by_cases hrc : env.countRC ≠ 0
      · simp only [if_pos hrc]
        exact iff_of_false (by simp) (fun h => hrc h.2.1)
      · simp only [if_neg hrc]
        by_cases hcv : env.countVal ≠ 0
        · simp only [if_pos hcv]
          exact iff_of_false (by simp) (fun h => hcv h.2.2)
        · simp only [if_neg hcv]
          by_cases hfo : env.fopenOk
          · simp only [if_pos hfo]
            exact iff_of_true (by simp) ⟨ho, not_not.mp hrc, not_not.mp hcv⟩
          · simp only [if_neg hfo]
            exact iff_of_true (by simp) ⟨ho, not_not.mp hrc, not_not.mp hcv⟩
    · exact iff_of_false (by simp [ho]) (fun h => ho h.1)
  · by_cases ho : env.openOk
    · by_cases hw : (storeLoop env.storeRC basicData).1
      · by_cases hfo : env.fopenOk
        · rw [gen_basic_okwrites_shape env ns ho hw hfo]
          exact iff_of_true (by simp) ⟨ho, hw⟩
        · have hfo2 : env.fopenOk = false := by simpa using hfo
          rw [gen_basic_fopen_fail_shape env ns ho hw hfo2]
          exact iff_of_true (by simp) ⟨ho, hw⟩
      · have hw2 : (storeLoop env.storeRC basicData).1 = false := by simpa using hw
        rw [gen_basic_fail_shape env ns ho hw2]
        refine iff_of_false ?_ (fun h => hw h.2)
        intro hmem
        rcases List.mem_cons.mp hmem with h | h
        · simp at h
        · exact closeStore_not_mem_storeLoop _ _ h
    · unfold gen_plan_basic
      simp only [if_neg ho]
      exact iff_of_false (by simp) (fun h => ho h.1)

/-- C10: for every record index of the basic plan the formatted key and
value strings are strictly shorter than the 128-byte snprintf buffer, so
no truncation occurs: the stored key and value equal the full decimal
formatted text, and all keys are pairwise distinct. -/
theorem C10_format_fits (i : Nat) (hi : i < N_REC) :
    ("key " ++ natDecimal i).length < 128 ∧
    ("value " ++ natDecimal i).length < 128 ∧
    basicKey i = "key " ++ natDecimal i ∧
    basicValue i = "value " ++ natDecimal i ∧
    (∀ j, j < N_REC → i ≠ j → basicKey i ≠ basicKey j) := by
  have hd := natDecimal_length_basic hi
  have hk : ("key " ++ natDecimal i).length < 128 := by
    rw [String.length_append]
    have h4 : ("key " : String).length = 4 := rfl
    omega
  have hv : ("value " ++ natDecimal i).length < 128 := by
    rw [String.length_append]
    have h6 : ("value " : String).length = 6 := rfl
    omega
  exact ⟨hk, hv, basicKey_eq hi, basicValue_eq hi,
    fun j hj hne => basicKey_inj hi hj hne⟩

/-- Witness for C10 at record indices 0 and 1. -/
theorem C10_witness :
    (("key " ++ natDecimal 0).length < 128 ∧
     ("value " ++ natDecimal 0).length < 128 ∧
     basicKey 0 = "key " ++ natDecimal 0 ∧
     basicValue 0 = "value " ++ natDecimal 0 ∧
     (∀ j, j < N_REC → 0 ≠ j → basicKey 0 ≠ basicKey j)) ∧
    basicKey 0 ≠ basicKey 1 := by
  have h := C10_format_fits 0 (by decide)
  exact ⟨h, h.2.2.2.2 1 (by decide) (by decide)⟩

end Testgen
